import Mathlib

/-
  Verification development for the VideoPixar video-generation client.

  The definitions below are a shallow embedding of the request-construction,
  polling, result-resolution and prompt-enhancement logic of the service
  module (the `generateVideo` and `enhancePrompt` functions).  External
  collaborators of that module (the remote generation service, the HTTP
  fetch primitive, `decodeURIComponent`, `URL.createObjectURL`, the access
  credential read from the environment) are modelled as an explicit
  environment record of pure functions, and every network interaction is
  recorded in an event trace so that statements about call counts and call
  ordering can be proved.
-/

namespace VideoPixar

/-- Generation mode enumeration (`GenerationMode` in the client types). -/
inductive GenerationMode where
  | TEXT_TO_VIDEO
  | FRAMES_TO_VIDEO
  | REFERENCES_TO_VIDEO
  | EXTEND_VIDEO
deriving DecidableEq, Repr

/-- An encoded image selected by the user: base64 payload plus the MIME type
and name of the underlying file (`ImageFile` = `{file, base64}` in the
client; only `file.type` and `file.name` are read by the core). -/
structure ImageFile where
  base64 : String
  fileType : String
  fileName : String
deriving DecidableEq, Repr

/-- Opaque remote video descriptor (`Video` from the service SDK); the core
only ever reads its percent-encoded `uri`. -/
structure Video where
  uri : Option String := none
deriving DecidableEq, Repr

/-- One generated-video entry of a completed operation response. -/
structure GeneratedVideo where
  video : Option Video := none
deriving DecidableEq, Repr

/-- Response carried by a terminal operation handle. -/
structure GenerateVideosResponse where
  generatedVideos : Option (List GeneratedVideo) := none
deriving DecidableEq, Repr

/-- Asynchronous operation handle: a `done` flag and, once terminal, an
optional response. -/
structure Operation where
  done : Bool := false
  response : Option GenerateVideosResponse := none
deriving DecidableEq, Repr

/-- An image as sent on the wire: `{imageBytes, mimeType}`. -/
structure ImagePayload where
  imageBytes : String
  mimeType : String
deriving DecidableEq, Repr

/-- Role tag of a reference image (`VideoGenerationReferenceType`). -/
inductive VideoGenerationReferenceType where
  | ASSET
  | STYLE
deriving DecidableEq, Repr

/-- A reference image entry of the submission payload. -/
structure VideoGenerationReferenceImage where
  image : ImagePayload
  referenceType : VideoGenerationReferenceType
deriving DecidableEq, Repr

/-- The `config` block of the submission payload. -/
structure VideoGenerationConfig where
  numberOfVideos : Nat
  resolution : String
  aspectRatio : Option String := none
  referenceImages : Option (List VideoGenerationReferenceImage) := none
  lastFrame : Option ImagePayload := none
deriving DecidableEq, Repr

/-- The full submission payload (`GenerateVideosParameters`). -/
structure GenerateVideosParameters where
  model : String
  config : VideoGenerationConfig
  prompt : Option String := none
  image : Option ImagePayload := none
  video : Option Video := none
deriving DecidableEq, Repr

/-- The mode-tagged user input (`GenerateVideoParams`).  Fields the core
never reads (for example the raw input-video file handle) are omitted.
`model`, `aspectRatio` and `resolution` are string enumerations in the
client and are modelled as strings. -/
structure GenerateVideoParams where
  prompt : String
  model : String
  aspectRatio : String
  resolution : String
  mode : GenerationMode
  startFrame : Option ImageFile := none
  endFrame : Option ImageFile := none
  referenceImages : Option (List ImageFile) := none
  styleImage : Option ImageFile := none
  inputVideoObject : Option Video := none
  isLooping : Bool := false
deriving DecidableEq, Repr

/-- The value returned on success: `{objectUrl, blob, uri, video}`.  The
binary blob is modelled as an opaque string of bytes. -/
structure GenerateVideoResult where
  objectUrl : String
  blob : String
  uri : String
  video : Video
deriving DecidableEq, Repr

/-- Result of the HTTP binary fetch. -/
structure FetchResponse where
  status : Nat
  statusText : String
  blob : String
deriving DecidableEq, Repr

/-- The `ok` flag of a fetch response: status in the inclusive 2xx range,
exactly as the fetch API defines it. -/
def FetchResponse.ok (r : FetchResponse) : Bool :=
  200 ≤ r.status && r.status ≤ 299

/-- Response of the text-generation call used by the prompt enhancer; its
`text` is absent or a string. -/
structure GenContentResponse where
  text : Option String := none
deriving DecidableEq, Repr

/-- One observable external interaction of the pipeline. -/
inductive NetEvent where
  | submit
  | wait (ms : Nat)
  | poll
  | fetch (url : String)
deriving DecidableEq, Repr

/-- The external world as seen by `generateVideo`: the access credential,
the submit / poll operations of the remote service (the i-th re-poll of a
run returns `poll i`), the `decodeURIComponent` builtin, the HTTP fetch of
a URL, and `URL.createObjectURL` on the returned bytes. -/
structure Env where
  apiKey : String
  submit : GenerateVideosParameters → Operation
  poll : Nat → Operation
  decodeURIComponent : String → String
  fetch : String → FetchResponse
  createObjectURL : String → String

/-- The forced full (non-fast) model identifier (`VeoModel.VEO`). -/
def VeoModel.VEO : String := "veo-3.1-generate-preview"

/-- The fast model identifier (`VeoModel.VEO_FAST`), the UI default. -/
def VeoModel.VEO_FAST : String := "veo-3.1-fast-generate-preview"

/-- The fixed transition-instruction suffix appended to the prompt when
extending a video towards a given last frame. -/
def transitionSuffix : String :=
  ". The video must seamlessly transition from the input video to the provided last frame. Correct any inconsistencies between the input video\x27s end and the target frame so the camera moves in one unified approach to the final frame."

/-- Message of the fail-fast validation error for ExtendVideo without an
input video object. -/
def inputVideoRequiredMsg : String :=
  "An input video object is required to extend a video."

/-- Message of the polling timeout error. -/
def timeoutMsg : String :=
  "Video generation timed out after 10 minutes. Please try again."

/-- Message of the remote failure raised when the terminal handle carries
no response object. -/
def noVideosGeneratedMsg : String := "No videos generated."

/-- Message of the remote failure raised when the response carries an
absent or empty video list. -/
def noVideosReturnedMsg : String :=
  "Video generation completed but no videos were returned. This may indicate an issue with the API or the request parameters."

/-- Message of the remote failure raised when the first video lacks a
usable URI. -/
def missingUriMsg : String := "Generated video is missing a URI."

/-- Hard cap on re-poll attempts (`MAX_ATTEMPTS = 60`). -/
def MAX_ATTEMPTS : Nat := 60

/-- Fixed wait before each re-poll, in milliseconds (`setTimeout 10000`). -/
def pollIntervalMs : Nat := 10000

/-- The effective end frame: the start frame when mode is FramesToVideo
with the looping flag set, otherwise the user-selected end frame. -/
def effectiveEndFrame (params : GenerateVideoParams) : Option ImageFile :=
  if params.mode = GenerationMode.FRAMES_TO_VIDEO ∧ params.isLooping = true then
    params.startFrame
  else
    params.endFrame

/-- The submitted model: forced to the full model when at least one
reference image is present, otherwise the user-selected model. -/
def modelField (params : GenerateVideoParams) : String :=
  match params.referenceImages with
  | some imgs => if imgs.length > 0 then VeoModel.VEO else params.model
  | none => params.model

/-- The prompt actually sent: the user prompt, with the transition suffix
appended when extending a video towards an effective end frame. -/
def finalPrompt (params : GenerateVideoParams) : String :=
  if params.mode = GenerationMode.EXTEND_VIDEO ∧ (effectiveEndFrame params).isSome = true then
    params.prompt ++ transitionSuffix
  else
    params.prompt

/-- The optional prompt of the payload: present exactly when the user
prompt is a non-empty string (the source guards with JS truthiness of the
string, which performs no trimming). -/
def promptField (params : GenerateVideoParams) : Option String :=
  if params.prompt ≠ "" then some (finalPrompt params) else none

/-- The reference-image list assembled for the payload: each user
reference image in order tagged ASSET, then the style image (when set)
appended last tagged STYLE. -/
def refImagesPayload (params : GenerateVideoParams) : List VideoGenerationReferenceImage :=
  (match params.referenceImages with
   | some imgs => imgs.map (fun img => ⟨⟨img.base64, img.fileType⟩, VideoGenerationReferenceType.ASSET⟩)
   | none => []) ++
  (match params.styleImage with
   | some s => [⟨⟨s.base64, s.fileType⟩, VideoGenerationReferenceType.STYLE⟩]
   | none => [])

/-- The optional reference-image field of the config: assembled only for
ReferencesToVideo and ExtendVideo modes, and omitted when the assembled
list is empty. -/
def refImagesField (params : GenerateVideoParams) : Option (List VideoGenerationReferenceImage) :=
  if params.mode = GenerationMode.REFERENCES_TO_VIDEO ∨ params.mode = GenerationMode.EXTEND_VIDEO then
    if (refImagesPayload params).length > 0 then some (refImagesPayload params) else none
  else
    none

/-- The optional last-frame field of the config: the effective end frame,
included only for FramesToVideo and ExtendVideo modes. -/
def lastFrameField (params : GenerateVideoParams) : Option ImagePayload :=
  match effectiveEndFrame params with
  | some ef =>
    if params.mode = GenerationMode.FRAMES_TO_VIDEO ∨ params.mode = GenerationMode.EXTEND_VIDEO then
      some ⟨ef.base64, ef.fileType⟩
    else
      none
  | none => none

/-- The optional start-image field: the start frame, for FramesToVideo
mode only. -/
def imageField (params : GenerateVideoParams) : Option ImagePayload :=
  if params.mode = GenerationMode.FRAMES_TO_VIDEO then
    match params.startFrame with
    | some sf => some ⟨sf.base64, sf.fileType⟩
    | none => none
  else
    none

/-- The optional input-video field: the input video object, for ExtendVideo
mode only (its mandatory presence in that mode is checked by
`buildPayload`). -/
def videoField (params : GenerateVideoParams) : Option Video :=
  if params.mode = GenerationMode.EXTEND_VIDEO then params.inputVideoObject else none

/-- The config block: one video, the requested resolution, the aspect
ratio except when extending a video, plus the reference-image and
last-frame fields. -/
def configField (params : GenerateVideoParams) : VideoGenerationConfig :=
  { numberOfVideos := 1
    resolution := params.resolution
    aspectRatio :=
      if params.mode ≠ GenerationMode.EXTEND_VIDEO then some params.aspectRatio else none
    referenceImages := refImagesField params
    lastFrame := lastFrameField params }

/-- The submission payload assembled from the parameters. -/
def mkPayload (params : GenerateVideoParams) : GenerateVideosParameters :=
  { model := modelField params
    config := configField params
    prompt := promptField params
    image := imageField params
    video := videoField params }

/-- Request construction including the single fail-fast validation of the
source: ExtendVideo without an input video object throws before the
request is submitted. -/
def buildPayload (params : GenerateVideoParams) : Except String GenerateVideosParameters :=
  if params.mode = GenerationMode.EXTEND_VIDEO ∧ params.inputVideoObject = none then
    Except.error inputVideoRequiredMsg
  else
    Except.ok (mkPayload params)

/-- The polling loop of the source, with its trace.  Starting from the
handle returned by submission and `attempts = 0`, each iteration first
waits the fixed interval, then replaces the handle by the freshly polled
status (`poll attempts` is the status returned by the re-poll numbered
`attempts`) and increments the counter; the loop exits when the current
handle is done or the attempt cap is reached.  Returns the final handle,
the final attempt counter and the list of events emitted. -/
def pollLoop (poll : Nat → Operation) (operation : Operation) (attempts : Nat) :
    Operation × Nat × List NetEvent :=
  if h : operation.done = false ∧ attempts < MAX_ATTEMPTS then
    ((pollLoop poll (poll attempts) (attempts + 1)).1,
     (pollLoop poll (poll attempts) (attempts + 1)).2.1,
     NetEvent.wait pollIntervalMs :: NetEvent.poll ::
       (pollLoop poll (poll attempts) (attempts + 1)).2.2)
  else
    (operation, attempts, [])
termination_by MAX_ATTEMPTS - attempts
decreasing_by omega

/-- The event trace of `n` loop iterations: `n` times a fixed wait
followed by one poll call. -/
def pollTrace : Nat → List NetEvent
  | 0 => []
  | n + 1 => NetEvent.wait pollIntervalMs :: NetEvent.poll :: pollTrace n

/-- Number of poll calls in a trace. -/
def countPolls : List NetEvent → Nat
  | [] => 0
  | NetEvent.poll :: rest => countPolls rest + 1
  | _ :: rest => countPolls rest

/-- Number of waits in a trace. -/
def countWaits : List NetEvent → Nat
  | [] => 0
  | NetEvent.wait _ :: rest => countWaits rest + 1
  | _ :: rest => countWaits rest

/-- The sequence of status observations of a run: observation `0` is the
handle returned by submission, observation `i + 1` is the handle returned
by re-poll number `i`. -/
def observed (op0 : Operation) (poll : Nat → Operation) : Nat → Operation
  | 0 => op0
  | i + 1 => poll i

/-- Result resolution on a terminal handle, with its trace: fails when the
handle has no response, when the video list is absent or empty, or when
the first video lacks a usable URI (absent video object, absent URI, or
empty URI, all falsy in the source guard); otherwise percent-decodes the
locator, fetches the binary with the credential appended, and
materializes the result, failing on a non-2xx status. -/
def resolveResult (env : Env) (operation : Operation) :
    Except String GenerateVideoResult × List NetEvent :=
  match operation.response with
  | none => (Except.error noVideosGeneratedMsg, [])
  | some response =>
    match response.generatedVideos with
    | none => (Except.error noVideosReturnedMsg, [])
    | some [] => (Except.error noVideosReturnedMsg, [])
    | some (firstVideo :: _) =>
      match firstVideo.video with
      | none => (Except.error missingUriMsg, [])
      | some videoObject =>
        match videoObject.uri with
        | none => (Except.error missingUriMsg, [])
        | some uri =>
          if uri = "" then (Except.error missingUriMsg, [])
          else
            let url := env.decodeURIComponent uri
            let fetchUrl := url ++ "&key=" ++ env.apiKey
            let res := env.fetch fetchUrl
            if res.ok = false then
              (Except.error ("Failed to fetch video: " ++ toString res.status ++ " " ++ res.statusText),
               [NetEvent.fetch fetchUrl])
            else
              (Except.ok { objectUrl := env.createObjectURL res.blob
                           blob := res.blob
                           uri := url
                           video := videoObject },
               [NetEvent.fetch fetchUrl])

/-- The whole `generateVideo` pipeline: build the payload (failing fast on
the ExtendVideo validation, before any network event), submit it, run the
polling loop, fail with the timeout message when the final handle is not
done, and otherwise resolve the result. -/
def generateVideoRun (env : Env) (params : GenerateVideoParams) :
    Except String GenerateVideoResult × List NetEvent :=
  match buildPayload params with
  | Except.error e => (Except.error e, [])
  | Except.ok payload =>
    if (pollLoop env.poll (env.submit payload) 0).1.done = false then
      (Except.error timeoutMsg,
       NetEvent.submit :: (pollLoop env.poll (env.submit payload) 0).2.2)
    else
      ((resolveResult env (pollLoop env.poll (env.submit payload) 0).1).1,
       (NetEvent.submit :: (pollLoop env.poll (env.submit payload) 0).2.2) ++
         (resolveResult env (pollLoop env.poll (env.submit payload) 0).1).2)

/-- The prompt enhancer.  `call` is the outcome of the text-generation
request (the source performs no try/catch around it, so an error outcome
propagates); on a successful response the enhanced text is returned
unless it is absent or empty, in which case the original prompt is
returned (`response.text || prompt`). -/
def enhancePrompt (call : Except String GenContentResponse) (prompt : String) :
    Except String String :=
  match call with
  | Except.error e => Except.error e
  | Except.ok response =>
    Except.ok (match response.text with
      | some t => if t = "" then prompt else t
      | none => prompt)

/-- A successful build yields exactly the assembled payload, and rules out
the single validation failure. -/
theorem buildPayload_ok {params : GenerateVideoParams} {payload : GenerateVideosParameters}
    (h : buildPayload params = Except.ok payload) :
    payload = mkPayload params ∧
      ¬(params.mode = GenerationMode.EXTEND_VIDEO ∧ params.inputVideoObject = none) := by
  by_cases hc : params.mode = GenerationMode.EXTEND_VIDEO ∧ params.inputVideoObject = none
  · simp [buildPayload, hc] at h
  · simp [buildPayload, hc] at h
    exact ⟨h.symm, hc⟩

/-- Auxiliary invariant of the polling loop: starting at observation `a`
with `n` more iterations to the first done observation `j = a + n`
(within the attempt cap), the loop ends on observation `j` with counter
`j` and emits `n` wait-poll pairs. -/
theorem pollLoop_reaches_aux (poll : Nat → Operation) (op0 : Operation) (j : Nat)
    (hj : j ≤ MAX_ATTEMPTS)
    (hdone : (observed op0 poll j).done = true)
    (hprev : ∀ i, i < j → (observed op0 poll i).done = false) :
    ∀ n a, a + n = j →
      pollLoop poll (observed op0 poll a) a = (observed op0 poll j, j, pollTrace n) := by
  intro n
  induction n with
  | zero =>
    intro a ha
    have haj : a = j := by omega
    subst haj
    rw [pollLoop, dif_neg]
    · rfl
    · simp [hdone]
  | succ n ih =>
    intro a ha
    have haj : a < j := by omega
    have hnd : (observed op0 poll a).done = false := hprev a haj
    have hlt : a < MAX_ATTEMPTS := by omega
    rw [pollLoop, dif_pos ⟨hnd, hlt⟩]
    have hrec : pollLoop poll (observed op0 poll (a + 1)) (a + 1) =
        (observed op0 poll j, j, pollTrace n) := ih (a + 1) (by omega)
    simp only [observed] at hrec
    rw [hrec]
    rfl

/-- Run-level form: when the first done observation is observation `j`
(within the attempt cap), the loop started on the submission handle ends
on that observation with counter `j` after `j` wait-poll pairs. -/
theorem pollLoop_reaches (poll : Nat → Operation) (op0 : Operation) (j : Nat)
    (hj : j ≤ MAX_ATTEMPTS)
    (hdone : (observed op0 poll j).done = true)
    (hprev : ∀ i, i < j → (observed op0 poll i).done = false) :
    pollLoop poll op0 0 = (observed op0 poll j, j, pollTrace j) := by
  have h := pollLoop_reaches_aux poll op0 j hj hdone hprev j 0 (by omega)
  simpa [observed] using h

/-- Auxiliary invariant of the polling loop when no observation is ever
done: starting at observation `a = MAX_ATTEMPTS - n`, the loop runs the
remaining `n` iterations, ends not done with counter `MAX_ATTEMPTS`, and
emits `n` wait-poll pairs. -/
theorem pollLoop_never_aux (poll : Nat → Operation)
    (hpoll : ∀ i, (poll i).done = false) :
    ∀ n a op, a + n = MAX_ATTEMPTS → op.done = false →
      (pollLoop poll op a).1.done = false ∧
      (pollLoop poll op a).2.1 = MAX_ATTEMPTS ∧
      (pollLoop poll op a).2.2 = pollTrace n := by
  intro n
  induction n with
  | zero =>
    intro a op ha hop
    have haj : a = MAX_ATTEMPTS := by omega
    subst haj
    rw [pollLoop, dif_neg]
    · exact ⟨hop, rfl, rfl⟩
    · simp
  | succ n ih =>
    intro a op ha hop
    have hlt : a < MAX_ATTEMPTS := by omega
    rw [pollLoop, dif_pos ⟨hop, hlt⟩]
    have hrec := ih (a + 1) (poll a) (by omega) (hpoll a)
    exact ⟨hrec.1, hrec.2.1, by rw [hrec.2.2]; rfl⟩

/-- A trace of `n` loop iterations contains exactly `n` poll calls. -/
theorem countPolls_pollTrace (n : Nat) : countPolls (pollTrace n) = n := by
  induction n with
  | zero => rfl
  | succ n ih => simp [pollTrace, countPolls, ih]

/-- A trace of `n` loop iterations contains exactly `n` waits. -/
theorem countWaits_pollTrace (n : Nat) : countWaits (pollTrace n) = n := by
  induction n with
  | zero => rfl
  | succ n ih => simp [pollTrace, countWaits, ih]

/-- Baseline parameter set: text-to-video, fast model, no media. -/
def baseParams : GenerateVideoParams :=
  { prompt := ""
    model := VeoModel.VEO_FAST
    aspectRatio := "16:9"
    resolution := "720p"
    mode := GenerationMode.TEXT_TO_VIDEO }

/-- A first concrete reference image. -/
def imgA : ImageFile := ⟨"bytesA", "image/png", "a.png"⟩

/-- A second concrete reference image. -/
def imgB : ImageFile := ⟨"bytesB", "image/png", "b.png"⟩

/-- A concrete style image. -/
def imgS : ImageFile := ⟨"bytesS", "image/jpeg", "s.jpg"⟩

/-- A handle that is still running. -/
def notDoneOp : Operation := { done := false, response := none }

/-- A terminal handle carrying no response. -/
def doneNoRespOp : Operation := { done := true, response := none }

/-- Baseline environment: identity decoding, a service whose polls never
complete, and an always-successful fetch. -/
def baseEnv : Env :=
  { apiKey := "K"
    submit := fun _ => notDoneOp
    poll := fun _ => notDoneOp
    decodeURIComponent := fun s => s
    fetch := fun _ => { status := 200, statusText := "OK", blob := "BYTES" }
    createObjectURL := fun b => "blob:" ++ b }

/-- C1: with mode ExtendVideo and no input-video job reference, the
pipeline fails with the validation message naming the missing input video
object, and its event trace is empty: the failure precedes submission and
every other network call. -/
theorem extend_without_input_video_fails_before_network
    (env : Env) (params : GenerateVideoParams)
    (hmode : params.mode = GenerationMode.EXTEND_VIDEO)
    (hvid : params.inputVideoObject = none) :
    generateVideoRun env params = (Except.error inputVideoRequiredMsg, []) := by
  simp [generateVideoRun, buildPayload, hmode, hvid]

/-- Concrete ExtendVideo parameter set lacking the input video object. -/
def extendNoVidParams : GenerateVideoParams :=
  { baseParams with mode := GenerationMode.EXTEND_VIDEO, prompt := "go on" }

/-- Witness for C1 at a concrete parameter set and environment. -/
theorem extend_without_input_video_fails_before_network_witness :
    generateVideoRun baseEnv extendNoVidParams = (Except.error inputVideoRequiredMsg, []) :=
  extend_without_input_video_fails_before_network baseEnv extendNoVidParams rfl rfl

/-- Concrete parameter set whose prompt is whitespace only. -/
def wsPromptParams : GenerateVideoParams := { baseParams with prompt := " " }

/-- C4 counterexample: a prompt consisting of whitespace only (it trims
to the empty string) nevertheless yields a payload containing a prompt
field (the source guards with string truthiness and never trims),
refuting the claim that the prompt field is governed by the trimmed
prompt. -/
theorem whitespace_prompt_included_cex :
    buildPayload wsPromptParams = Except.ok (mkPayload wsPromptParams) ∧
      wsPromptParams.prompt.data.all Char.isWhitespace = true ∧
      wsPromptParams.prompt ≠ "" ∧
      (mkPayload wsPromptParams).prompt = some " " :=
  ⟨rfl, by decide, by decide, rfl⟩

/-- C4 amended: the payload has a prompt field exactly when the user
prompt is a non-empty string; no trimming is applied. -/
theorem prompt_included_iff_nonempty
    (params : GenerateVideoParams) (payload : GenerateVideosParameters)
    (h : buildPayload params = Except.ok payload) :
    payload.prompt.isSome = true ↔ params.prompt ≠ "" := by
  obtain ⟨hp, -⟩ := buildPayload_ok h
  subst hp
  by_cases hpr : params.prompt = "" <;> simp [mkPayload, promptField, hpr]

/-- Witness for the amended C4 at the whitespace-only prompt. -/
theorem prompt_included_iff_nonempty_witness :
    buildPayload wsPromptParams = Except.ok (mkPayload wsPromptParams) ∧
      ((mkPayload wsPromptParams).prompt.isSome = true ↔ wsPromptParams.prompt ≠ "") :=
  ⟨rfl, prompt_included_iff_nonempty wsPromptParams (mkPayload wsPromptParams) rfl⟩

/-- C5: with mode ExtendVideo, an effective end frame present and a
non-empty prompt, the outgoing prompt is exactly the user prompt followed
by the fixed transition-instruction suffix.  The builder is a pure
function of the read-only parameters, so the stored user prompt is
untouched: the augmented text exists only in the payload. -/
theorem extend_prompt_gets_transition_suffix
    (params : GenerateVideoParams) (payload : GenerateVideosParameters)
    (hmode : params.mode = GenerationMode.EXTEND_VIDEO)
    (heff : (effectiveEndFrame params).isSome = true)
    (hprompt : params.prompt ≠ "")
    (h : buildPayload params = Except.ok payload) :
    payload.prompt = some (params.prompt ++ transitionSuffix) := by
  obtain ⟨hp, -⟩ := buildPayload_ok h
  subst hp
  simp [mkPayload, promptField, finalPrompt, hmode, heff, hprompt]

/-- Concrete ExtendVideo parameter set with end frame, prompt and input
video object. -/
def extendParams : GenerateVideoParams :=
  { baseParams with
      mode := GenerationMode.EXTEND_VIDEO
      prompt := "P"
      endFrame := some imgA
      inputVideoObject := some { uri := some "http://v" } }

/-- Witness for C5 at a concrete ExtendVideo parameter set. -/
theorem extend_prompt_gets_transition_suffix_witness :
    buildPayload extendParams = Except.ok (mkPayload extendParams) ∧
      (mkPayload extendParams).prompt = some ("P" ++ transitionSuffix) :=
  ⟨rfl, extend_prompt_gets_transition_suffix extendParams (mkPayload extendParams)
    rfl rfl (by decide) rfl⟩

/-- C6: whenever at least one reference image is present, the payload
model is the forced full (non-fast) identifier, whatever the mode and the
user-selected model. -/
theorem reference_images_force_full_model
    (params : GenerateVideoParams) (imgs : List ImageFile)
    (payload : GenerateVideosParameters)
    (href : params.referenceImages = some imgs)
    (hlen : imgs.length > 0)
    (h : buildPayload params = Except.ok payload) :
    payload.model = VeoModel.VEO := by
  obtain ⟨hp, -⟩ := buildPayload_ok h
  subst hp
  simp [mkPayload, modelField, href, hlen]

/-- Concrete ReferencesToVideo parameter set selecting the fast model with
one reference image. -/
def refParams : GenerateVideoParams :=
  { baseParams with
      mode := GenerationMode.REFERENCES_TO_VIDEO
      prompt := "x"
      referenceImages := some [imgA] }

/-- Witness for C6: the fast model was requested, the built model is the
forced full identifier. -/
theorem reference_images_force_full_model_witness :
    buildPayload refParams = Except.ok (mkPayload refParams) ∧
      refParams.model = VeoModel.VEO_FAST ∧
      (mkPayload refParams).model = VeoModel.VEO :=
  ⟨rfl, rfl, reference_images_force_full_model refParams [imgA] (mkPayload refParams)
    rfl (by decide) rfl⟩

/-- C2: when no status observation ever reports done, the run performs
exactly `MAX_ATTEMPTS = 60` poll calls, each preceded by one fixed wait
(the trace is the submission followed by sixty wait-poll pairs and
nothing else, so no sixty-first poll happens), and then fails with the
timeout message, which differs from every remote-failure message. -/
theorem polling_timeout_after_sixty_polls
    (env : Env) (params : GenerateVideoParams) (payload : GenerateVideosParameters)
    (hbuild : buildPayload params = Except.ok payload)
    (hsub : (env.submit payload).done = false)
    (hpoll : ∀ i, (env.poll i).done = false) :
    generateVideoRun env params =
        (Except.error timeoutMsg, NetEvent.submit :: pollTrace MAX_ATTEMPTS) ∧
      countPolls (pollTrace MAX_ATTEMPTS) = 60 ∧
      countWaits (pollTrace MAX_ATTEMPTS) = 60 ∧
      timeoutMsg ≠ noVideosGeneratedMsg ∧
      timeoutMsg ≠ noVideosReturnedMsg ∧
      timeoutMsg ≠ missingUriMsg := by
  have hp := pollLoop_never_aux env.poll hpoll MAX_ATTEMPTS 0 (env.submit payload)
    (by omega) hsub
  refine ⟨?_, countPolls_pollTrace MAX_ATTEMPTS, countWaits_pollTrace MAX_ATTEMPTS,
    by decide, by decide, by decide⟩
  simp [generateVideoRun, hbuild, hp.1, hp.2.2]

/-- Witness for C2: a concrete run against a service that never completes
times out with exactly the sixty-pair trace. -/
theorem polling_timeout_after_sixty_polls_witness :
    generateVideoRun baseEnv baseParams =
      (Except.error timeoutMsg, NetEvent.submit :: pollTrace MAX_ATTEMPTS) :=
  (polling_timeout_after_sixty_polls baseEnv baseParams (mkPayload baseParams)
    rfl rfl (fun _ => rfl)).1

/-- C3 counterexample: when the text-generation call itself fails, the
enhancer propagates that failure to its caller instead of returning the
original prompt, refuting the claim that it never throws. -/
theorem enhance_failure_propagates_cex :
    enhancePrompt (Except.error "network error") "P" = Except.error "network error" ∧
      enhancePrompt (Except.error "network error") "P" ≠ Except.ok "P" :=
  ⟨rfl, fun h => Except.noConfusion (rfl.trans h)⟩

/-- C3 amended: the enhancer returns the original prompt unchanged on an
absent or empty response text, and returns the enhanced text otherwise,
but a failure of the text-generation call itself propagates as an
exception to the caller (the UI call site absorbs it). -/
theorem enhance_fallback_amended
    (e p : String) (response : GenContentResponse) :
    enhancePrompt (Except.error e) p = Except.error e ∧
      (response.text = none ∨ response.text = some "" →
        enhancePrompt (Except.ok response) p = Except.ok p) ∧
      (∀ t, response.text = some t → t ≠ "" →
        enhancePrompt (Except.ok response) p = Except.ok t) := by
  refine ⟨rfl, ?_, ?_⟩
  · intro h
    rcases h with h | h <;> simp [enhancePrompt, h]
  · intro t ht hne
    simp [enhancePrompt, ht, hne]

/-- Witness for the amended C3: failure propagation and empty-text
fallback at concrete inputs. -/
theorem enhance_fallback_amended_witness :
    enhancePrompt (Except.error "boom") "P" = Except.error "boom" ∧
      enhancePrompt (Except.ok { text := some "" }) "P" = Except.ok "P" :=
  ⟨(enhance_fallback_amended "boom" "P" { text := some "" }).1,
   (enhance_fallback_amended "boom" "P" { text := some "" }).2.1 (Or.inr rfl)⟩

/-- C7: the reference-image field is populated only for ReferencesToVideo
and ExtendVideo modes; there it is omitted when the assembled list is
empty and otherwise holds the user reference images in their original
order tagged ASSET followed, last, by the style image tagged STYLE. -/
theorem reference_image_field_spec
    (params : GenerateVideoParams) (payload : GenerateVideosParameters)
    (h : buildPayload params = Except.ok payload) :
    (¬(params.mode = GenerationMode.REFERENCES_TO_VIDEO ∨
        params.mode = GenerationMode.EXTEND_VIDEO) →
      payload.config.referenceImages = none) ∧
    (params.mode = GenerationMode.REFERENCES_TO_VIDEO ∨
        params.mode = GenerationMode.EXTEND_VIDEO →
      refImagesPayload params = [] →
      payload.config.referenceImages = none) ∧
    (params.mode = GenerationMode.REFERENCES_TO_VIDEO ∨
        params.mode = GenerationMode.EXTEND_VIDEO →
      refImagesPayload params ≠ [] →
      payload.config.referenceImages = some (refImagesPayload params)) ∧
    refImagesPayload params =
      (params.referenceImages.getD []).map
        (fun img => ⟨⟨img.base64, img.fileType⟩, VideoGenerationReferenceType.ASSET⟩) ++
      (match params.styleImage with
       | some s => [⟨⟨s.base64, s.fileType⟩, VideoGenerationReferenceType.STYLE⟩]
       | none => []) := by
  obtain ⟨hp, -⟩ := buildPayload_ok h
  subst hp
  refine ⟨?_, ?_, ?_, ?_⟩
  · intro hmode
    simp [mkPayload, configField, refImagesField, hmode]
  · intro hmode hemp
    simp [mkPayload, configField, refImagesField, hmode, hemp]
  · intro hmode hne
    have hlen : (refImagesPayload params).length > 0 := List.length_pos.mpr hne
    simp [mkPayload, configField, refImagesField, hmode, hlen]
  · cases href : params.referenceImages <;> simp [refImagesPayload, href]

/-- Concrete ReferencesToVideo parameter set with two reference images and
one style image. -/
def refs2StyleParams : GenerateVideoParams :=
  { baseParams with
      mode := GenerationMode.REFERENCES_TO_VIDEO
      prompt := "x"
      referenceImages := some [imgA, imgB]
      styleImage := some imgS }

/-- Witness for C7: two reference images plus one style image yield
exactly three entries, in order ASSET, ASSET, STYLE. -/
theorem reference_image_field_spec_witness :
    buildPayload refs2StyleParams = Except.ok (mkPayload refs2StyleParams) ∧
      (mkPayload refs2StyleParams).config.referenceImages =
        some (refImagesPayload refs2StyleParams) ∧
      refImagesPayload refs2StyleParams =
        [⟨⟨"bytesA", "image/png"⟩, VideoGenerationReferenceType.ASSET⟩,
         ⟨⟨"bytesB", "image/png"⟩, VideoGenerationReferenceType.ASSET⟩,
         ⟨⟨"bytesS", "image/jpeg"⟩, VideoGenerationReferenceType.STYLE⟩] :=
  ⟨rfl,
   (reference_image_field_spec refs2StyleParams (mkPayload refs2StyleParams) rfl).2.2.1
     (Or.inl rfl) (by decide),
   by decide⟩

/-- A terminal handle whose first video carries the locator
"http://h/v". -/
def uriDoneOp : Operation :=
  { done := true
    response := some { generatedVideos := some [{ video := some { uri := some "http://h/v" } }] } }

/-- C8 counterexample: at a concrete successful terminal handle the fetch
requests the decoded locator with the credential appended after an
ampersand, not after a question mark as the claim states. -/
theorem fetch_url_uses_ampersand_cex :
    (resolveResult baseEnv uriDoneOp).2 = [NetEvent.fetch "http://h/v&key=K"] ∧
      "http://h/v&key=K" ≠ "http://h/v?key=K" :=
  ⟨rfl, by decide⟩

/-- C8 amended: the binary fetch requests exactly the percent-decoded
locator with the access credential appended as an ampersand-separated
query parameter, and a non-2xx response yields the failure message built
from the status code and status text. -/
theorem fetch_url_and_failure
    (env : Env) (operation : Operation) (response : GenerateVideosResponse)
    (firstVideo : GeneratedVideo) (rest : List GeneratedVideo)
    (videoObject : Video) (uri : String)
    (hresp : operation.response = some response)
    (hvids : response.generatedVideos = some (firstVideo :: rest))
    (hvid : firstVideo.video = some videoObject)
    (huri : videoObject.uri = some uri)
    (hne : uri ≠ "") :
    (resolveResult env operation).2 =
        [NetEvent.fetch (env.decodeURIComponent uri ++ "&key=" ++ env.apiKey)] ∧
      ((env.fetch (env.decodeURIComponent uri ++ "&key=" ++ env.apiKey)).ok = false →
        (resolveResult env operation).1 =
          Except.error ("Failed to fetch video: " ++
            toString (env.fetch (env.decodeURIComponent uri ++ "&key=" ++ env.apiKey)).status ++
            " " ++
            (env.fetch (env.decodeURIComponent uri ++ "&key=" ++ env.apiKey)).statusText)) := by
  constructor
  · by_cases hok : (env.fetch (env.decodeURIComponent uri ++ "&key=" ++ env.apiKey)).ok = false <;>
      simp [resolveResult, hresp, hvids, hvid, huri, hne, hok]
  · intro hok
    simp [resolveResult, hresp, hvids, hvid, huri, hne, hok]

/-- Environment whose fetch always answers 404 Not Found. -/
def fetch404Env : Env :=
  { baseEnv with fetch := fun _ => { status := 404, statusText := "Not Found", blob := "" } }

/-- Witness for the amended C8: a concrete failing fetch produces the
ampersand URL and the message carrying status code and text. -/
theorem fetch_url_and_failure_witness :
    (resolveResult fetch404Env uriDoneOp).2 = [NetEvent.fetch "http://h/v&key=K"] ∧
      (resolveResult fetch404Env uriDoneOp).1 =
        Except.error "Failed to fetch video: 404 Not Found" := by
  have h := fetch_url_and_failure fetch404Env uriDoneOp
    { generatedVideos := some [{ video := some { uri := some "http://h/v" } }] }
    { video := some { uri := some "http://h/v" } } []
    { uri := some "http://h/v" } "http://h/v"
    rfl rfl rfl rfl (by decide)
  exact ⟨h.1, h.2 rfl⟩

/-- C9: result resolution fails in three sub-cases, each with its own
diagnostic: a terminal handle without a response object, a response whose
video list is absent or empty, and a first video lacking a usable URI
(absent video object, absent URI, or empty URI); the three messages are
pairwise distinct, in particular the empty-list message differs from the
missing-URI message. -/
theorem resolver_diagnostics :
    (∀ (env : Env) (operation : Operation),
      operation.response = none →
      (resolveResult env operation).1 = Except.error noVideosGeneratedMsg) ∧
    (∀ (env : Env) (operation : Operation) (response : GenerateVideosResponse),
      operation.response = some response →
      response.generatedVideos = none →
      (resolveResult env operation).1 = Except.error noVideosReturnedMsg) ∧
    (∀ (env : Env) (operation : Operation) (response : GenerateVideosResponse),
      operation.response = some response →
      response.generatedVideos = some [] →
      (resolveResult env operation).1 = Except.error noVideosReturnedMsg) ∧
    (∀ (env : Env) (operation : Operation) (response : GenerateVideosResponse)
        (firstVideo : GeneratedVideo) (rest : List GeneratedVideo),
      operation.response = some response →
      response.generatedVideos = some (firstVideo :: rest) →
      firstVideo.video = none →
      (resolveResult env operation).1 = Except.error missingUriMsg) ∧
    (∀ (env : Env) (operation : Operation) (response : GenerateVideosResponse)
        (firstVideo : GeneratedVideo) (rest : List GeneratedVideo) (videoObject : Video),
      operation.response = some response →
      response.generatedVideos = some (firstVideo :: rest) →
      firstVideo.video = some videoObject →
      videoObject.uri = none →
      (resolveResult env operation).1 = Except.error missingUriMsg) ∧
    (∀ (env : Env) (operation : Operation) (response : GenerateVideosResponse)
        (firstVideo : GeneratedVideo) (rest : List GeneratedVideo) (videoObject : Video),
      operation.response = some response →
      response.generatedVideos = some (firstVideo :: rest) →
      firstVideo.video = some videoObject →
      videoObject.uri = some "" →
      (resolveResult env operation).1 = Except.error missingUriMsg) ∧
    noVideosGeneratedMsg ≠ noVideosReturnedMsg ∧
    noVideosGeneratedMsg ≠ missingUriMsg ∧
    noVideosReturnedMsg ≠ missingUriMsg := by
  refine ⟨?_, ?_, ?_, ?_, ?_, ?_, by decide, by decide, by decide⟩
  · intro env operation h
    simp [resolveResult, h]
  · intro env operation response h1 h2
    simp [resolveResult, h1, h2]
  · intro env operation response h1 h2
    simp [resolveResult, h1, h2]
  · intro env operation response firstVideo rest h1 h2 h3
    simp [resolveResult, h1, h2, h3]
  · intro env operation response firstVideo rest videoObject h1 h2 h3 h4
    simp [resolveResult, h1, h2, h3, h4]
  · intro env operation response firstVideo rest videoObject h1 h2 h3 h4
    simp [resolveResult, h1, h2, h3, h4]

/-- A terminal handle whose response has an empty video list. -/
def emptyVideosOp : Operation :=
  { done := true, response := some { generatedVideos := some [] } }

/-- A terminal handle whose first video lacks the video object. -/
def noUriOp : Operation :=
  { done := true, response := some { generatedVideos := some [{ video := none }] } }

/-- Witness for C9: each sub-case evaluated at a concrete terminal
handle. -/
theorem resolver_diagnostics_witness :
    (resolveResult baseEnv doneNoRespOp).1 = Except.error noVideosGeneratedMsg ∧
      (resolveResult baseEnv emptyVideosOp).1 = Except.error noVideosReturnedMsg ∧
      (resolveResult baseEnv noUriOp).1 = Except.error missingUriMsg :=
  ⟨resolver_diagnostics.1 baseEnv doneNoRespOp rfl,
   resolver_diagnostics.2.2.1 baseEnv emptyVideosOp
     { generatedVideos := some [] } rfl rfl,
   resolver_diagnostics.2.2.2.1 baseEnv noUriOp
     { generatedVideos := some [{ video := none }] } { video := none } [] rfl rfl rfl⟩

/-- C10: when the first done status is observation `j` in zero-based
counting (that is, the k-th observation with `k = j + 1`, observation `0`
being the handle returned by submission), the loop makes exactly `j`
re-poll calls, each preceded by one fixed wait, ends with that
observation as its final handle, and the run resolves exactly that
handle; with `j = 0` (already done at submission) there are zero polls
and zero waits. -/
theorem poll_until_done_counts
    (env : Env) (params : GenerateVideoParams) (payload : GenerateVideosParameters)
    (j : Nat)
    (hbuild : buildPayload params = Except.ok payload)
    (hj : j ≤ MAX_ATTEMPTS)
    (hdone : (observed (env.submit payload) env.poll j).done = true)
    (hprev : ∀ i, i < j → (observed (env.submit payload) env.poll i).done = false) :
    pollLoop env.poll (env.submit payload) 0 =
        (observed (env.submit payload) env.poll j, j, pollTrace j) ∧
      countPolls (pollTrace j) = j ∧
      countWaits (pollTrace j) = j ∧
      generateVideoRun env params =
        ((resolveResult env (observed (env.submit payload) env.poll j)).1,
         (NetEvent.submit :: pollTrace j) ++
           (resolveResult env (observed (env.submit payload) env.poll j)).2) := by
  have hp := pollLoop_reaches env.poll (env.submit payload) j hj hdone hprev
  refine ⟨hp, countPolls_pollTrace j, countWaits_pollTrace j, ?_⟩
  simp [generateVideoRun, hbuild, hp, hdone]

/-- Environment whose second re-poll is the first done observation. -/
def firstDoneAt2Env : Env :=
  { baseEnv with poll := fun i => if i = 1 then doneNoRespOp else notDoneOp }

/-- Environment whose submission handle is already done. -/
def doneAtSubmitEnv : Env :=
  { baseEnv with submit := fun _ => doneNoRespOp }

/-- Witness for C10: first done at observation 2 gives two wait-poll
pairs; already done at submission gives an empty poll trace and the
submission handle resolved directly. -/
theorem poll_until_done_counts_witness :
    pollLoop firstDoneAt2Env.poll (firstDoneAt2Env.submit (mkPayload baseParams)) 0 =
        (doneNoRespOp, 2, pollTrace 2) ∧
      pollLoop doneAtSubmitEnv.poll (doneAtSubmitEnv.submit (mkPayload baseParams)) 0 =
        (doneNoRespOp, 0, []) ∧
      generateVideoRun doneAtSubmitEnv baseParams =
        (Except.error noVideosGeneratedMsg, [NetEvent.submit]) := by
  have h2 := poll_until_done_counts firstDoneAt2Env baseParams (mkPayload baseParams) 2
    rfl (by decide) rfl
    (by intro i hi; interval_cases i <;> rfl)
  have h0 := poll_until_done_counts doneAtSubmitEnv baseParams (mkPayload baseParams) 0
    rfl (by decide) rfl
    (fun i hi => absurd hi (Nat.not_lt_zero i))
  exact ⟨h2.1, h0.1, h0.2.2.2⟩

end VideoPixar
